import Mathlib

/-!
Verification of the HomeKit `HeaterCooler` accessory
(`homeassistant/components/homekit/type_heatercoolers.py`).

The Python class is shallowly embedded: the accessory object is the record
`HCState`, a Home Assistant `State` snapshot is `NewState`, service
invocations (`call_service`) are collected in a `List ServiceCall`, log
statements in a `List Log`, and Python exceptions are surfaced as `PyErr`
values.  Methods that can raise return `Except PyErr _`; `update_state`
returns the mutated state together with an optional exception, since a
Python exception leaves the mutations already performed in place.

Attributes that `__init__` does not always assign (`char_speed`,
`char_swing`, `_flag_fan`, `_flag_swing`, `_swing_on`, `_swing_off`) are
modelled as `Option` fields whose `none` means "attribute never assigned";
reading such an attribute raises `AttributeError` in Python.

Temperatures are modelled as rationals.  The helper module
`homeassistant/components/homekit/util.py` (unit conversion and
`HomeKitSpeedMapping`) is not part of the sources; those helpers are
modelled from the specification and marked as such below.
-/

/-! ## Data model, constant tables and embedded operations -/

inductive TempUnit where
  | celsius
  | fahrenheit
  deriving DecidableEq

inductive PyErr where
  | attributeError (name : String)
  | keyError (key : String)
  | typeError (msg : String)
  deriving DecidableEq

inductive Log where
  | error (msg : String)
  | debug (msg : String)
  deriving DecidableEq

/-- Abstract device command, one constructor per service invoked by the
accessory (`call_service (domain, service, params, label)`). -/
inductive ServiceCall where
  | setHvacMode (entity_id : String) (hvac_mode : String)
  | setTemperatureRange (entity_id : String) (target_temp_high target_temp_low : ℚ)
  | setTemperatureSingle (entity_id : String) (temperature : ℚ)
  | setFanMode (entity_id : String) (fan_mode : String)
  | setSwingMode (entity_id : String) (swing_mode : String)
  deriving DecidableEq

def HVAC_MODE_HEAT : String := "heat"

def HVAC_MODE_COOL : String := "cool"

def HVAC_MODE_HEAT_COOL : String := "heat_cool"

def HVAC_MODE_AUTO : String := "auto"

def HVAC_MODE_OFF : String := "off"

def HVAC_MODE_FAN_ONLY : String := "fan_only"

def HVAC_MODE_DRY : String := "dry"

def CURRENT_HVAC_OFF : String := "off"

def CURRENT_HVAC_IDLE : String := "idle"

def CURRENT_HVAC_HEAT : String := "heating"

def CURRENT_HVAC_COOL : String := "cooling"

/-- Modelled from the spec: the supported-feature bitmask constants of the
climate integration (`homeassistant/components/climate/const.py`, not under
the given sources). -/
def SUPPORT_TARGET_TEMPERATURE : Nat := 1

def SUPPORT_TARGET_TEMPERATURE_RANGE : Nat := 2

def SUPPORT_FAN_MODE : Nat := 8

def SUPPORT_SWING_MODE : Nat := 32

def CHAR_TEMP_DISPLAY_UNITS : String := "TemperatureDisplayUnits"

def CHAR_COOLING_THRESHOLD_TEMPERATURE : String := "CoolingThresholdTemperature"

def CHAR_HEATING_THRESHOLD_TEMPERATURE : String := "HeatingThresholdTemperature"

def CHAR_ROTATION_SPEED : String := "RotationSpeed"

def CHAR_SWING_MODE : String := "SwingMode"

/-- The `HC_HASS_TO_HOMEKIT` table, in the insertion order of the Python dict literal
(the order matters for the derived inverse dict). -/
def HC_HASS_TO_HOMEKIT : List (String × Nat) :=
  [(HVAC_MODE_HEAT, 1), (HVAC_MODE_COOL, 2), (HVAC_MODE_AUTO, 0),
   (HVAC_MODE_HEAT_COOL, 0), (HVAC_MODE_FAN_ONLY, 2)]

def hcLookup (m : String) : Option Nat :=
  (HC_HASS_TO_HOMEKIT.find? (fun p => p.1 == m)).map (fun p => p.2)

def HC_HASS_TO_HOMEKIT_ACTION : List (String × Nat) :=
  [(CURRENT_HVAC_OFF, 0), (CURRENT_HVAC_IDLE, 1),
   (CURRENT_HVAC_HEAT, 2), (CURRENT_HVAC_COOL, 3)]

def actionLookup (a : String) : Option Nat :=
  (HC_HASS_TO_HOMEKIT_ACTION.find? (fun p => p.1 == a)).map (fun p => p.2)

def UNIT_HASS_TO_HOMEKIT : TempUnit → Nat
  | TempUnit.celsius => 0
  | TempUnit.fahrenheit => 1

/-- Python `a.lower()`, as a character list. -/
def pyLower (s : String) : List Char := s.data.map Char.toLower

/-- Whether the character list contains `['o','f','f']` as a contiguous
sublist. -/
def hasOff : List Char → Bool
  | 'o' :: 'f' :: 'f' :: _ => true
  | _ :: rest => hasOff rest
  | [] => false

/-- Python `"off" in a.lower()`. -/
def strContainsOff (a : String) : Bool := hasOff (pyLower a)

/-- Modelled from the spec: `temperature_to_homekit` of
`homeassistant/components/homekit/util.py` (not under the given sources) —
conversion of a device-unit temperature to the protocol's fixed Celsius
representation.  The half-degree rounding the spec describes as an accepted
lossy step is omitted; no claim below depends on it. -/
def temperature_to_homekit (t : ℚ) : TempUnit → ℚ
  | TempUnit.celsius => t
  | TempUnit.fahrenheit => (t - 32) * 5 / 9

/-- Modelled from the spec: `temperature_to_states` of
`homeassistant/components/homekit/util.py` (not under the given sources) —
conversion of a protocol (Celsius) temperature back to device units. -/
def temperature_to_states (t : ℚ) : TempUnit → ℚ
  | TempUnit.celsius => t
  | TempUnit.fahrenheit => t * 9 / 5 + 32

/-- Modelled from the spec: `HomeKitSpeedMapping` of `util.py` (not under
the given sources).  The mapping is represented extensionally as the list
of (device speed name, protocol scale position) pairs. -/
def makeSpeedMapping (names : List String) : List (String × ℚ) :=
  names.enum.map (fun p => (p.2, ((p.1 + 1 : ℚ) * 100) / (names.length : ℚ)))

/-- Modelled from the spec: `HomeKitSpeedMapping.speed_to_homekit` — an
unknown (or absent) device fan-speed name maps to `none`. -/
def speed_to_homekit (m : List (String × ℚ)) (fan_mode : Option String) : Option ℚ :=
  match fan_mode with
  | none => none
  | some nm => (m.find? (fun p => p.1 == nm)).map (fun p => p.2)

/-- Modelled from the spec: `HomeKitSpeedMapping.speed_to_states` — a
protocol value always resolves to a device speed (nearest position). -/
def speed_to_states (m : List (String × ℚ)) (v : ℚ) : String :=
  match m with
  | [] => ""
  | p :: rest => (rest.foldl (fun best q => if |q.2 - v| < |best.2 - v| then q else best) p).1

/-- The mutable part of a `HeaterCooler` object, plus the configuration
resolved at construction.  `Option` on `flag_fan`, `flag_swing`,
`char_speed`, `char_swing`, `swing_on`, `swing_off` distinguishes
"attribute never assigned" (`none`) from an assigned value: `__init__`
assigns only the four temperature/mode flags and leaves the fan/swing
attributes unset unless the corresponding feature is configured. -/
structure HCState where
  entity_id : String
  unit : TempUnit
  hc_homekit_to_hass : List (Nat × String)
  speed_mapping : List (String × ℚ)
  swing_on : Option String
  swing_off : Option String
  flag_heat_cool : Bool
  flag_temperature : Bool
  flag_coolingthresh : Bool
  flag_heatingthresh : Bool
  flag_fan : Option Bool
  flag_swing : Option Bool
  char_current_heat_cool : Nat
  char_target_heat_cool : Nat
  char_active : Nat
  char_current_temp : ℚ
  char_display_units : Nat
  char_target_temp : Option ℚ
  char_cooling_thresh_temp : Option ℚ
  char_heating_thresh_temp : Option ℚ
  char_speed : Option ℚ
  char_swing : Option Nat
  deriving DecidableEq

/-- A device-state snapshot (`new_state`): the hvac mode string plus the
attributes `update_state` reads.  A temperature attribute that is absent or
not numeric (the `isinstance` guards) is `none`. -/
structure NewState where
  state : String
  current_temperature : Option ℚ
  temperature : Option ℚ
  target_temp_high : Option ℚ
  target_temp_low : Option ℚ
  hvac_action : Option String
  fan_mode : Option String
  swing_mode : Option String
  deriving DecidableEq

/-- Lookup in the accessory's protocol-to-device mode dict
(`self.hc_homekit_to_hass[value]`); `none` both for the `in` test failing
and for a `KeyError`. -/
def dictGet? (d : List (Nat × String)) (k : Nat) : Option String :=
  (d.find? (fun p => p.1 == k)).map (fun p => p.2)

/-- Method `HeaterCooler.set_heat_cool` (lines 263-288).  The `value in
self.hc_homekit_to_hass` membership test and the subsequent indexing are
both rendered by `dictGet?`. -/
def set_heat_cool (s : HCState) (value : Nat) :
    Except PyErr (HCState × List ServiceCall × List Log) :=
  let is_active := s.char_active
  match dictGet? s.hc_homekit_to_hass value with
  | some hass_value =>
    if is_active != 0 then
      Except.ok ({ s with flag_heat_cool := true },
        [ServiceCall.setHvacMode s.entity_id hass_value],
        [Log.debug "Set heat-cool"])
    else
      Except.ok (s, [],
        [Log.debug "updated heat-cool characteristic, but service is inactive"])
  | none =>
    Except.ok (s, [],
      [Log.error "HomeKit tried to set invalid heat-cool characteristic"])

/-- Method `HeaterCooler.set_cooling_threshold` (lines 305-324), without its
`@debounce` decorator (see `debounce_burst`).  Reading `.value` of a
missing paired characteristic would be an `AttributeError`. -/
def set_cooling_threshold (s : HCState) (value : ℚ) :
    Except PyErr (HCState × List ServiceCall × List Log) :=
  match s.char_heating_thresh_temp with
  | none => Except.error (PyErr.attributeError "value")
  | some low =>
    let s := { s with flag_coolingthresh := true }
    let temperature := temperature_to_states value s.unit
    Except.ok (s,
      [ServiceCall.setTemperatureRange s.entity_id temperature
        (temperature_to_states low s.unit)],
      [Log.debug "Set cooling threshold temperature"])

/-- Modelled from the spec: the `@debounce` decorator of
`homeassistant/components/homekit/accessories.py` (not under the given
sources).  A burst of writes within one debounce window re-arms a single
timer; at expiry the decorated body runs exactly once, with the most
recently written value; intermediate values are discarded. -/
def debounce_burst
    (body : HCState → ℚ → Except PyErr (HCState × List ServiceCall × List Log))
    (s : HCState) (values : List ℚ) :
    Except PyErr (HCState × List ServiceCall × List Log) :=
  match values.getLast? with
  | none => Except.ok (s, [], [])
  | some v => body s v

/-- Method `HeaterCooler.set_fan_mode` (lines 370-377), without its `@debounce`
decorator. -/
def set_fan_mode (s : HCState) (value : ℚ) :
    HCState × List ServiceCall × List Log :=
  let s := { s with flag_fan := some true }
  let speed := speed_to_states s.speed_mapping value
  (s, [ServiceCall.setFanMode s.entity_id speed], [Log.debug "Set speed"])

/-- Method `HeaterCooler.set_swing_mode` (lines 361-368).  `_swing_on` /
`_swing_off` exist whenever this callback is registered, so their access is
rendered total (`getD`). -/
def set_swing_mode (s : HCState) (value : Nat) :
    HCState × List ServiceCall × List Log :=
  let s := { s with flag_swing := some true }
  let oscillating := (if value == 1 then s.swing_on else s.swing_off).getD ""
  (s, [ServiceCall.setSwingMode s.entity_id oscillating], [Log.debug "Set oscillating"])

/-- Lines 381-385: current temperature. -/
def upd_current_temp (s : HCState) (ns : NewState) : HCState :=
  match ns.current_temperature with
  | some t => { s with char_current_temp := temperature_to_homekit t s.unit }
  | none => s

/-- Lines 387-394: target temperature; the flag is cleared inside the
`if self.char_target_temp:` block. -/
def upd_target_temp (s : HCState) (ns : NewState) : HCState :=
  match s.char_target_temp with
  | none => s
  | some _ =>
    let s :=
      match ns.temperature with
      | some t =>
        if !s.flag_temperature then
          { s with char_target_temp := some (temperature_to_homekit t s.unit) }
        else s
      | none => s
    { s with flag_temperature := false }

/-- Lines 396-403: cooling threshold; the flag is cleared outside the
characteristic-existence test. -/
def upd_cooling (s : HCState) (ns : NewState) : HCState :=
  let s :=
    match s.char_cooling_thresh_temp with
    | none => s
    | some _ =>
      match ns.target_temp_high with
      | some t =>
        if !s.flag_coolingthresh then
          { s with char_cooling_thresh_temp := some (temperature_to_homekit t s.unit) }
        else s
      | none => s
  { s with flag_coolingthresh := false }

/-- Lines 405-412: heating threshold; the flag is cleared outside the
characteristic-existence test. -/
def upd_heating (s : HCState) (ns : NewState) : HCState :=
  let s :=
    match s.char_heating_thresh_temp with
    | none => s
    | some _ =>
      match ns.target_temp_low with
      | some t =>
        if !s.flag_heatingthresh then
          { s with char_heating_thresh_temp := some (temperature_to_homekit t s.unit) }
        else s
      | none => s
  { s with flag_heatingthresh := false }

/-- Lines 414-416: display units (`self._unit` is always one of the two
mapped units). -/
def upd_display (s : HCState) : HCState :=
  { s with char_display_units := UNIT_HASS_TO_HOMEKIT s.unit }

/-- Lines 418-427: target operation mode and active state; the flag is
cleared unconditionally at the end. -/
def upd_mode (s : HCState) (ns : NewState) : HCState :=
  let hvac_mode := ns.state
  let s :=
    if hvac_mode != "" && (hvac_mode == HVAC_MODE_OFF || hvac_mode == HVAC_MODE_DRY) then
      if !s.flag_heat_cool then { s with char_active := 0 } else s
    else if hvac_mode != "" && (hcLookup hvac_mode).isSome then
      if !s.flag_heat_cool then
        { s with char_active := 1,
                 char_target_heat_cool := (hcLookup hvac_mode).getD 0 }
      else s
    else s
  { s with flag_heat_cool := false }

/-- Lines 429-434: current operation mode;
`HC_HASS_TO_HOMEKIT_ACTION[hvac_action]` is an unguarded dict indexing, a
`KeyError` on an unknown action name. -/
def upd_action (s : HCState) (ns : NewState) : Except PyErr HCState :=
  match ns.hvac_action with
  | none => Except.ok s
  | some a =>
    if a != "" then
      match actionLookup a with
      | some v => Except.ok { s with char_current_heat_cool := v }
      | none => Except.error (PyErr.keyError a)
    else Except.ok s

/-- Lines 435-441: fan speed.  `if self.char_speed:` raises
`AttributeError` when the attribute was never assigned; the pending flag is
assigned but not consulted — the write is guarded only by the mapped value
being non-`None` and different from the current one. -/
def upd_fan (s : HCState) (ns : NewState) : Except PyErr HCState :=
  match s.char_speed with
  | none => Except.error (PyErr.attributeError "char_speed")
  | some cur =>
    let hk_speed_value := speed_to_homekit s.speed_mapping ns.fan_mode
    let s :=
      match hk_speed_value with
      | some v => if cur != v then { s with char_speed := some v } else s
      | none => s
    Except.ok { s with flag_fan := some false }

/-- Lines 443-449: swing.  `if self.char_swing:` and
`if not self._flag_swing:` raise `AttributeError` on never-assigned
attributes, and `oscillating.lower()` raises when the snapshot has no
swing-mode attribute (`None.lower()`). -/
def upd_swing (s : HCState) (ns : NewState) : Except PyErr HCState :=
  match s.char_swing with
  | none => Except.error (PyErr.attributeError "char_swing")
  | some _ =>
    match s.flag_swing with
    | none => Except.error (PyErr.attributeError "_flag_swing")
    | some fs =>
      if !fs then
        match ns.swing_mode with
        | none => Except.error (PyErr.attributeError "lower")
        | some oscillating =>
          let hk_oscillating : Nat := if strContainsOff oscillating then 0 else 1
          Except.ok { s with char_swing := some hk_oscillating, flag_swing := some false }
      else Except.ok { s with flag_swing := some false }

/-- Method `HeaterCooler.update_state` (lines 379-449).  Returns the object state
after the call together with the exception, if one was raised: mutations
made before the raising line persist, as in Python. -/
def update_state (s : HCState) (ns : NewState) : HCState × Option PyErr :=
  let s := upd_current_temp s ns
  let s := upd_target_temp s ns
  let s := upd_cooling s ns
  let s := upd_heating s ns
  let s := upd_display s
  let s := upd_mode s ns
  match upd_action s ns with
  | Except.error e => (s, some e)
  | Except.ok s1 =>
    match upd_fan s1 ns with
    | Except.error e => (s1, some e)
    | Except.ok s2 =>
      match upd_swing s2 ns with
      | Except.error e => (s2, some e)
      | Except.ok s3 => (s3, none)

/-- Lines 114-122: resolving the snapshot's mode list.  When the list is
unavailable the code logs an error and then evaluates
`list(HVAC_MODE_HEAT, HVAC_MODE_COOL, HVAC_MODE_HEAT_COOL)`; the Python
builtin `list` accepts at most one argument, so that call raises
`TypeError` instead of producing the intended fallback list. -/
def resolve_modes (modes : Option (List String)) :
    Except PyErr (List String) × List Log :=
  match modes with
  | some ms => (Except.ok ms, [])
  | none =>
    (Except.error (PyErr.typeError "list expected at most 1 argument, got 3"),
     [Log.error "HVAC modes not yet available for this entity"])

/-- Lines 128-140: choice of the single threshold slot when only
`SUPPORT_TARGET_TEMPERATURE` is present. -/
def single_temperature_char (modes : List String) : String × List Log :=
  if modes.contains HVAC_MODE_COOL && modes.contains HVAC_MODE_HEAT then
    (CHAR_HEATING_THRESHOLD_TEMPERATURE,
     [Log.error "Entities supporting heating and cooling should use a temperature range"])
  else if modes.contains HVAC_MODE_COOL then
    (CHAR_COOLING_THRESHOLD_TEMPERATURE, [])
  else
    (CHAR_HEATING_THRESHOLD_TEMPERATURE, [])

/-- Lines 124-141: the temperature characteristics added to `self.chars`. -/
def temp_chars (features : Nat) (modes : List String) : List String × List Log :=
  if features &&& SUPPORT_TARGET_TEMPERATURE_RANGE != 0 then
    ([CHAR_COOLING_THRESHOLD_TEMPERATURE, CHAR_HEATING_THRESHOLD_TEMPERATURE], [])
  else if features &&& SUPPORT_TARGET_TEMPERATURE != 0 then
    let p := single_temperature_char modes
    ([p.1], p.2)
  else ([], [])

/-- Lines 150-151: partition of the swing-mode list into the "off"-named
subset and the remainder. -/
def swing_partition (swing_modes : List String) : List String × List String :=
  let offs := swing_modes.filter (fun a => strContainsOff a)
  (offs, swing_modes.filter (fun a => !(offs.contains a)))

/-- Lines 111-157: the list of additional characteristics (`self.chars`)
plus the construction-time error logs. -/
def build_chars (features : Nat) (modes : List String) (swing_modes : List String) :
    List String × List Log :=
  let chars := [CHAR_TEMP_DISPLAY_UNITS]
  let tc := temp_chars features modes
  let chars := chars ++ tc.1
  let logs := tc.2
  let chars :=
    if features &&& SUPPORT_FAN_MODE != 0 then chars ++ [CHAR_ROTATION_SPEED] else chars
  if features &&& SUPPORT_SWING_MODE != 0 then
    let p := swing_partition swing_modes
    if p.2.length > 0 && p.1.length > 0 then (chars ++ [CHAR_SWING_MODE], logs)
    else (chars, logs ++ [Log.error "Could not map swing modes"])
  else (chars, logs)

def HC_KEYS : List String := HC_HASS_TO_HOMEKIT.map (fun p => p.1)

/-- Lines 166-171: the usable mode list.  `[a for a in modes if a in
HC_HASS_TO_HOMEKIT.keys()]`, then the two subsumption removals
(`list.remove` drops the first occurrence). -/
def usableModes (modes : List String) : List String :=
  let u := modes.filter (fun m => HC_KEYS.contains m)
  let u :=
    if u.contains HVAC_MODE_AUTO && u.contains HVAC_MODE_HEAT_COOL then
      u.erase HVAC_MODE_HEAT_COOL
    else u
  if u.contains HVAC_MODE_COOL && u.contains HVAC_MODE_FAN_ONLY then
    u.erase HVAC_MODE_FAN_ONLY
  else u

/-- Insertion into a Python dict rendered as an insertion-ordered
association list: an existing key keeps its position and gets the new
value, a new key is appended. -/
def pyDictInsert (d : List (Nat × String)) (k : Nat) (v : String) : List (Nat × String) :=
  if d.any (fun p => p.1 == k) then
    d.map (fun p => if p.1 == k then (k, v) else p)
  else d ++ [(k, v)]

/-- Lines 173-175: `self.hc_homekit_to_hass = {c: s for s, c in
HC_HASS_TO_HOMEKIT.items() if s in usable_modes}` — iterating the literal
in insertion order, later entries overwriting earlier ones. -/
def buildHcHomekitToHass (usable : List String) : List (Nat × String) :=
  HC_HASS_TO_HOMEKIT.foldl
    (fun d p => if usable.contains p.1 then pyDictInsert d p.2 p.1 else d) []

/-- Lines 177-178: the exported `valid_values` of the target-mode
characteristic. -/
def validValues (dict : List (Nat × String)) : List (String × Nat) :=
  [("Auto", 0), ("Cool", 2), ("Heat", 1)].filter
    (fun kv => dict.any (fun p => p.1 == kv.2))

/-- The constructor's inputs: the state snapshot attributes examined at
construction time. -/
structure ConstructArgs where
  entity_id : String
  unit : TempUnit
  features : Nat
  hvac_modes : Option (List String)
  fan_modes : Option (List String)
  swing_modes : Option (List String)
  deriving DecidableEq

/-- Constructor `HeaterCooler.__init__` (lines 96-241): resolves capabilities, builds
the characteristic set and the mode dict, and initialises the
characteristic values and pending flags.  Initial values are the ones the
source passes to `configure_char` (21.0 / 23.0 / 19.0 / 0 / active 1); the
fan/swing attributes are left unassigned (`none`) unless configured. -/
def construct (a : ConstructArgs) : Except PyErr (HCState × List Log) :=
  let rm := resolve_modes a.hvac_modes
  match rm.1 with
  | Except.error e => Except.error e
  | Except.ok modes =>
    let bc := build_chars a.features modes (a.swing_modes.getD [])
    let chars := bc.1
    let usable := usableModes modes
    let dict := buildHcHomekitToHass usable
    let sp := swing_partition (a.swing_modes.getD [])
    let hasSwing := chars.contains CHAR_SWING_MODE
    Except.ok
      ({ entity_id := a.entity_id
         unit := a.unit
         hc_homekit_to_hass := dict
         speed_mapping :=
           if a.features &&& SUPPORT_FAN_MODE != 0 then
             makeSpeedMapping (a.fan_modes.getD [])
           else []
         swing_on := if hasSwing then sp.2.head? else none
         swing_off := if hasSwing then sp.1.head? else none
         flag_heat_cool := false
         flag_temperature := false
         flag_coolingthresh := false
         flag_heatingthresh := false
         flag_fan := none
         flag_swing := none
         char_current_heat_cool := 0
         char_target_heat_cool := 0
         char_active := 1
         char_current_temp := 21
         char_display_units := 0
         char_target_temp :=
           if a.features &&& SUPPORT_TARGET_TEMPERATURE_RANGE != 0 then none
           else if a.features &&& SUPPORT_TARGET_TEMPERATURE != 0 then some 21
           else none
         char_cooling_thresh_temp :=
           if a.features &&& SUPPORT_TARGET_TEMPERATURE_RANGE != 0 then some 23 else none
         char_heating_thresh_temp :=
           if a.features &&& SUPPORT_TARGET_TEMPERATURE_RANGE != 0 then some 19 else none
         char_speed := if chars.contains CHAR_ROTATION_SPEED then some 0 else none
         char_swing := if hasSwing then some 0 else none },
       rm.2 ++ bc.2)

/-- The constructed accessory state, when construction succeeds. -/
def constructOk (a : ConstructArgs) : Option HCState :=
  match construct a with
  | Except.ok p => some p.1
  | Except.error _ => none

/-! ## Derived definitions used to state and prove the claims -/

/-- The pure prefix of `update_state` (lines 381-427): the blocks before
the first fallible block, in source order. -/
def preState (s : HCState) (ns : NewState) : HCState :=
  upd_mode (upd_display (upd_heating (upd_cooling (upd_target_temp (upd_current_temp s ns) ns) ns) ns)) ns

/-- The part of `update_state` before the target-mode block. -/
def preMode (s : HCState) (ns : NewState) : HCState :=
  upd_display (upd_heating (upd_cooling (upd_target_temp (upd_current_temp s ns) ns) ns) ns)

/-- Whether the snapshot's hvac-action attribute cannot trigger the
`KeyError` of lines 430-434 (absent, falsy, or a known action name). -/
def actionOk (ns : NewState) : Bool :=
  match ns.hvac_action with
  | none => true
  | some a => (a == "") || (actionLookup a).isSome

/-! ## Concrete accessories, snapshots and mode lists -/

/-- A range-capable accessory with fan and swing support, as resolved for a
device with modes `[heat, cool, heat_cool]`; all pending flags clear. -/
def demoState : HCState :=
  { entity_id := "climate.demo"
    unit := TempUnit.celsius
    hc_homekit_to_hass := [(1, HVAC_MODE_HEAT), (2, HVAC_MODE_COOL), (0, HVAC_MODE_HEAT_COOL)]
    speed_mapping := [("low", 50), ("high", 100)]
    swing_on := some "swing_on"
    swing_off := some "swing_off"
    flag_heat_cool := false
    flag_temperature := false
    flag_coolingthresh := false
    flag_heatingthresh := false
    flag_fan := some false
    flag_swing := some false
    char_current_heat_cool := 0
    char_target_heat_cool := 1
    char_active := 1
    char_current_temp := 21
    char_display_units := 0
    char_target_temp := none
    char_cooling_thresh_temp := some 23
    char_heating_thresh_temp := some 19
    char_speed := some 50
    char_swing := some 0 }

/-- A benign device snapshot for `demoState`. -/
def demoNS : NewState :=
  { state := "heat"
    current_temperature := none
    temperature := none
    target_temp_high := none
    target_temp_low := none
    hvac_action := none
    fan_mode := none
    swing_mode := some "swing_on" }

def inactiveState : HCState := { demoState with char_active := 0 }

/-- C9 (counterexample): the fan-speed pending flag is set, the device
echoes a different speed, and the refresh still writes the mapped device
value into the rotation-speed characteristic — the pending flag is not
consulted by the fan block. -/
def c9State : HCState :=
  { demoState with flag_fan := some true, char_speed := some 100 }

def c9NS : NewState := { demoNS with fan_mode := some "low" }

def c9UnknownNS : NewState := { demoNS with fan_mode := some "turbo" }

/-- The accessory right after a debounced fan-speed protocol write of 100
has flushed: the protocol layer has stored the written value in the
characteristic and the callback has set the pending flag. -/
def c1Written : HCState :=
  { (set_fan_mode demoState 100).1 with char_speed := some 100 }

/-- A device refresh echoing a fan speed that differs from the written
value. -/
def c1EchoNS : NewState := { demoNS with fan_mode := some "low" }

/-- The full-featured accessory with every pending flag set (each
protocol write just flushed), plus a single-target variant. -/
def c1AllFlags : HCState :=
  { demoState with flag_heat_cool := true, flag_temperature := true,
                   flag_coolingthresh := true, flag_heatingthresh := true,
                   flag_fan := some true, flag_swing := some true,
                   char_target_temp := some 21, char_swing := some 1 }

def c1NoFlags : HCState := { demoState with char_target_temp := some 21 }

/-- A refresh whose reported values all differ from the written ones. -/
def c1RefreshNS : NewState :=
  { state := "cool"
    current_temperature := some 22
    temperature := some 24
    target_temp_high := some 26
    target_temp_low := some 18
    hvac_action := none
    fan_mode := none
    swing_mode := some "swing_off" }

/-- A plain range-thermostat device: no fan, no swing. -/
def c6NoFanArgs : ConstructArgs :=
  { entity_id := "climate.a", unit := TempUnit.celsius,
    features := SUPPORT_TARGET_TEMPERATURE_RANGE,
    hvac_modes := some [HVAC_MODE_HEAT, HVAC_MODE_COOL],
    fan_modes := none, swing_modes := none }

/-- A full-featured device: range + fan + swing. -/
def c6FullArgs : ConstructArgs :=
  { entity_id := "climate.b", unit := TempUnit.celsius,
    features := SUPPORT_TARGET_TEMPERATURE_RANGE + SUPPORT_FAN_MODE + SUPPORT_SWING_MODE,
    hvac_modes := some [HVAC_MODE_HEAT, HVAC_MODE_COOL],
    fan_modes := some ["low", "high"],
    swing_modes := some ["swing_off", "swing_on"] }

def c6NS : NewState :=
  { state := "heat", current_temperature := none, temperature := none,
    target_temp_high := none, target_temp_low := none, hvac_action := none,
    fan_mode := none, swing_mode := some "swing_on" }

def c6NoSwingNS : NewState := { c6NS with swing_mode := none }

/-- A device mode list with a duplicated combined mode. -/
def dupModes : List String := [HVAC_MODE_AUTO, HVAC_MODE_HEAT_COOL, HVAC_MODE_HEAT_COOL]

def c4Modes : List String :=
  [HVAC_MODE_AUTO, HVAC_MODE_HEAT_COOL, HVAC_MODE_COOL, HVAC_MODE_FAN_ONLY]

/-! ## Supporting lemmas -/

theorem shape_current (s : HCState) (ns : NewState) :
    ∃ a, upd_current_temp s ns = { s with char_current_temp := a } := by
  unfold upd_current_temp
  split
  · exact ⟨_, rfl⟩
  · exact ⟨_, rfl⟩

theorem shape_target (s : HCState) (ns : NewState) :
    ∃ a b, upd_target_temp s ns = { s with char_target_temp := a, flag_temperature := b } := by
  unfold upd_target_temp
  split
  · exact ⟨_, _, rfl⟩
  · dsimp only
    split
    · split
      · exact ⟨_, _, rfl⟩
      · exact ⟨_, _, rfl⟩
    · exact ⟨_, _, rfl⟩

theorem shape_cooling (s : HCState) (ns : NewState) :
    ∃ a, upd_cooling s ns = { s with char_cooling_thresh_temp := a, flag_coolingthresh := false } := by
  unfold upd_cooling
  dsimp only
  split
  · exact ⟨_, rfl⟩
  · split
    · split
      · exact ⟨_, rfl⟩
      · exact ⟨_, rfl⟩
    · exact ⟨_, rfl⟩

theorem shape_heating (s : HCState) (ns : NewState) :
    ∃ a, upd_heating s ns = { s with char_heating_thresh_temp := a, flag_heatingthresh := false } := by
  unfold upd_heating
  dsimp only
  split
  · exact ⟨_, rfl⟩
  · split
    · split
      · exact ⟨_, rfl⟩
      · exact ⟨_, rfl⟩
    · exact ⟨_, rfl⟩

theorem shape_mode (s : HCState) (ns : NewState) :
    ∃ a b, upd_mode s ns =
      { s with char_active := a, char_target_heat_cool := b, flag_heat_cool := false } := by
  unfold upd_mode
  dsimp only
  split
  · split
    · exact ⟨_, _, rfl⟩
    · exact ⟨_, _, rfl⟩
  · split
    · split
      · exact ⟨_, _, rfl⟩
      · exact ⟨_, _, rfl⟩
    · exact ⟨_, _, rfl⟩

theorem update_state_eq (s : HCState) (ns : NewState) :
    update_state s ns =
      (match upd_action (preState s ns) ns with
       | Except.error e => (preState s ns, some e)
       | Except.ok s1 =>
         match upd_fan s1 ns with
         | Except.error e => (s1, some e)
         | Except.ok s2 =>
           match upd_swing s2 ns with
           | Except.error e => (s2, some e)
           | Except.ok s3 => (s3, none)) := rfl

theorem preState_shape (s : HCState) (ns : NewState) :
    ∃ a b c d e f g h,
      preState s ns =
        { s with char_current_temp := a, char_target_temp := b, flag_temperature := c,
                 char_cooling_thresh_temp := d, flag_coolingthresh := false,
                 char_heating_thresh_temp := e, flag_heatingthresh := false,
                 char_display_units := f,
                 char_active := g, char_target_heat_cool := h, flag_heat_cool := false } := by
  obtain ⟨a1, e1⟩ := shape_current s ns
  obtain ⟨a2, b2, e2⟩ := shape_target (upd_current_temp s ns) ns
  obtain ⟨a3, e3⟩ := shape_cooling (upd_target_temp (upd_current_temp s ns) ns) ns
  obtain ⟨a4, e4⟩ :=
    shape_heating (upd_cooling (upd_target_temp (upd_current_temp s ns) ns) ns) ns
  obtain ⟨a6, b6, e6⟩ :=
    shape_mode
      (upd_display (upd_heating (upd_cooling (upd_target_temp (upd_current_temp s ns) ns) ns) ns))
      ns
  refine ⟨a1, a2, b2, a3, a4, UNIT_HASS_TO_HOMEKIT s.unit, a6, b6, ?_⟩
  unfold preState
  rw [e6, e4, e3, e2, e1]
  rfl

theorem action_ok_shape (s : HCState) (ns : NewState) (s' : HCState)
    (h : upd_action s ns = Except.ok s') :
    s' = { s with char_current_heat_cool := s'.char_current_heat_cool } := by
  unfold upd_action at h
  split at h
  · cases h
    rfl
  · split at h
    · split at h
      · cases h
        rfl
      · exact Except.noConfusion h
    · cases h
      rfl

theorem fan_ok_shape (s : HCState) (ns : NewState) (s' : HCState)
    (h : upd_fan s ns = Except.ok s') :
    s' = { s with char_speed := s'.char_speed, flag_fan := some false } := by
  unfold upd_fan at h
  split at h
  · exact Except.noConfusion h
  · dsimp only at h
    split at h
    · split at h
      · cases h
        rfl
      · cases h
        rfl
    · cases h
      rfl

theorem swing_ok_shape (s : HCState) (ns : NewState) (s' : HCState)
    (h : upd_swing s ns = Except.ok s') :
    s' = { s with char_swing := s'.char_swing, flag_swing := s'.flag_swing } := by
  unfold upd_swing at h
  split at h
  · exact Except.noConfusion h
  · split at h
    · exact Except.noConfusion h
    · split at h
      · split at h
        · exact Except.noConfusion h
        · cases h
          rfl
      · cases h
        rfl

theorem update_state_early (s : HCState) (ns : NewState) :
    (update_state s ns).1.char_target_heat_cool = (preState s ns).char_target_heat_cool ∧
    (update_state s ns).1.char_active = (preState s ns).char_active ∧
    (update_state s ns).1.flag_heat_cool = (preState s ns).flag_heat_cool ∧
    (update_state s ns).1.char_target_temp = (preState s ns).char_target_temp ∧
    (update_state s ns).1.flag_temperature = (preState s ns).flag_temperature ∧
    (update_state s ns).1.char_cooling_thresh_temp = (preState s ns).char_cooling_thresh_temp ∧
    (update_state s ns).1.flag_coolingthresh = (preState s ns).flag_coolingthresh ∧
    (update_state s ns).1.char_heating_thresh_temp = (preState s ns).char_heating_thresh_temp ∧
    (update_state s ns).1.flag_heatingthresh = (preState s ns).flag_heatingthresh := by
  rw [update_state_eq]
  cases ha : upd_action (preState s ns) ns with
  | error e => exact ⟨rfl, rfl, rfl, rfl, rfl, rfl, rfl, rfl, rfl⟩
  | ok s1 =>
    have E1 := action_ok_shape _ _ _ ha
    dsimp only
    cases hf : upd_fan s1 ns with
    | error e =>
      rw [E1]
      exact ⟨rfl, rfl, rfl, rfl, rfl, rfl, rfl, rfl, rfl⟩
    | ok s2 =>
      have E2 := fan_ok_shape _ _ _ hf
      dsimp only
      cases hs : upd_swing s2 ns with
      | error e =>
        rw [E2, E1]
        exact ⟨rfl, rfl, rfl, rfl, rfl, rfl, rfl, rfl, rfl⟩
      | ok s3 =>
        have E3 := swing_ok_shape _ _ _ hs
        dsimp only
        rw [E3, E2, E1]
        exact ⟨rfl, rfl, rfl, rfl, rfl, rfl, rfl, rfl, rfl⟩

theorem action_ok_of (s : HCState) (ns : NewState) (h : actionOk ns = true) :
    ∃ s', upd_action s ns = Except.ok s' := by
  unfold actionOk at h
  unfold upd_action
  cases hn : ns.hvac_action with
  | none => exact ⟨s, rfl⟩
  | some a =>
    rw [hn] at h
    by_cases he : a = ""
    · subst he
      simp
    · have hne : (a != "") = true := by simp [he]
      simp only [hne, if_true]
      have : (actionLookup a).isSome = true := by
        rcases Bool.or_eq_true_iff.mp h with h1 | h1
        · exact absurd (by simpa using h1) he
        · exact h1
      obtain ⟨v, hv⟩ := Option.isSome_iff_exists.mp this
      rw [hv]
      exact ⟨_, rfl⟩

theorem fan_ok_of (s : HCState) (ns : NewState) (h : s.char_speed.isSome = true) :
    ∃ s', upd_fan s ns = Except.ok s' := by
  obtain ⟨c, hc⟩ := Option.isSome_iff_exists.mp h
  unfold upd_fan
  rw [hc]
  exact ⟨_, rfl⟩

theorem mode_suppressed_step (s : HCState) (ns : NewState) (h : s.flag_heat_cool = true) :
    upd_mode s ns = { s with flag_heat_cool := false } := by
  simp [upd_mode, h]

theorem hcLookup_mode_props (m : String) (k : Nat) (h : hcLookup m = some k) :
    (m == HVAC_MODE_OFF) = false ∧ (m == HVAC_MODE_DRY) = false ∧ (m != "") = true := by
  unfold hcLookup at h
  cases hf : HC_HASS_TO_HOMEKIT.find? (fun p => p.1 == m) with
  | none => rw [hf] at h; exact absurd h (by simp)
  | some p =>
    have hp := List.find?_some hf
    have hmem : p ∈ HC_HASS_TO_HOMEKIT := List.mem_of_find?_eq_some hf
    have hpm : p.1 = m := by simpa using hp
    subst hpm
    simp only [HC_HASS_TO_HOMEKIT, HVAC_MODE_HEAT, HVAC_MODE_COOL, HVAC_MODE_AUTO,
      HVAC_MODE_HEAT_COOL, HVAC_MODE_FAN_ONLY, List.mem_cons, List.mem_singleton] at hmem
    rcases hmem with h1 | h1 | h1 | h1 | h1 | h1 <;> first
      | (rw [h1]; decide)
      | exact absurd h1 (by simp)

theorem mode_normal_step (s : HCState) (ns : NewState) (k : Nat)
    (hf : s.flag_heat_cool = false) (hm : hcLookup ns.state = some k) :
    upd_mode s ns =
      { s with char_active := 1, char_target_heat_cool := k, flag_heat_cool := false } := by
  obtain ⟨h1, h2, h3⟩ := hcLookup_mode_props ns.state k hm
  simp [upd_mode, hf, h1, h2, h3, hm]

theorem target_suppressed_step (s : HCState) (ns : NewState) (c : ℚ)
    (h : s.flag_temperature = true) (hc : s.char_target_temp = some c) :
    upd_target_temp s ns = { s with flag_temperature := false } := by
  cases ht : ns.temperature <;> simp [upd_target_temp, h, hc, ht]

theorem target_normal_step (s : HCState) (ns : NewState) (c t : ℚ)
    (h : s.flag_temperature = false) (hc : s.char_target_temp = some c)
    (ht : ns.temperature = some t) :
    upd_target_temp s ns =
      { s with char_target_temp := some (temperature_to_homekit t s.unit),
               flag_temperature := false } := by
  simp [upd_target_temp, h, hc, ht]

theorem cooling_suppressed_step (s : HCState) (ns : NewState)
    (h : s.flag_coolingthresh = true) :
    upd_cooling s ns = { s with flag_coolingthresh := false } := by
  cases hc : s.char_cooling_thresh_temp <;> cases ht : ns.target_temp_high <;>
    simp [upd_cooling, h, hc, ht]

theorem cooling_normal_step (s : HCState) (ns : NewState) (c t : ℚ)
    (h : s.flag_coolingthresh = false) (hc : s.char_cooling_thresh_temp = some c)
    (ht : ns.target_temp_high = some t) :
    upd_cooling s ns =
      { s with char_cooling_thresh_temp := some (temperature_to_homekit t s.unit),
               flag_coolingthresh := false } := by
  simp [upd_cooling, h, hc, ht]

theorem heating_suppressed_step (s : HCState) (ns : NewState)
    (h : s.flag_heatingthresh = true) :
    upd_heating s ns = { s with flag_heatingthresh := false } := by
  cases hc : s.char_heating_thresh_temp <;> cases ht : ns.target_temp_low <;>
    simp [upd_heating, h, hc, ht]

theorem heating_normal_step (s : HCState) (ns : NewState) (c t : ℚ)
    (h : s.flag_heatingthresh = false) (hc : s.char_heating_thresh_temp = some c)
    (ht : ns.target_temp_low = some t) :
    upd_heating s ns =
      { s with char_heating_thresh_temp := some (temperature_to_homekit t s.unit),
               flag_heatingthresh := false } := by
  simp [upd_heating, h, hc, ht]

theorem swing_suppressed_step (s : HCState) (ns : NewState) (w : Nat)
    (hf : s.flag_swing = some true) (hc : s.char_swing = some w) :
    upd_swing s ns = Except.ok { s with flag_swing := some false } := by
  simp [upd_swing, hf, hc]

theorem swing_normal_step (s : HCState) (ns : NewState) (w : Nat) (osc : String)
    (hf : s.flag_swing = some false) (hc : s.char_swing = some w)
    (ho : ns.swing_mode = some osc) :
    upd_swing s ns =
      Except.ok { s with char_swing := some (if strContainsOff osc then 0 else 1),
                         flag_swing := some false } := by
  simp [upd_swing, hf, hc, ho]

theorem fan_step_behavior (s : HCState) (ns : NewState) (cur : ℚ)
    (h : s.char_speed = some cur) :
    upd_fan s ns =
      Except.ok
        { s with
          char_speed := some ((speed_to_homekit s.speed_mapping ns.fan_mode).getD cur),
          flag_fan := some false } := by
  cases hk : speed_to_homekit s.speed_mapping ns.fan_mode with
  | none => simp [upd_fan, h, hk]
  | some v =>
    by_cases hd : cur = v
    · subst hd
      simp [upd_fan, h, hk]
    · have : (cur != v) = true := by simp [hd]
      simp [upd_fan, h, hk, this]

theorem preMode_shape (s : HCState) (ns : NewState) :
    ∃ a b c d e f,
      preMode s ns =
        { s with char_current_temp := a, char_target_temp := b, flag_temperature := c,
                 char_cooling_thresh_temp := d, flag_coolingthresh := false,
                 char_heating_thresh_temp := e, flag_heatingthresh := false,
                 char_display_units := f } := by
  obtain ⟨a1, e1⟩ := shape_current s ns
  obtain ⟨a2, b2, e2⟩ := shape_target (upd_current_temp s ns) ns
  obtain ⟨a3, e3⟩ := shape_cooling (upd_target_temp (upd_current_temp s ns) ns) ns
  obtain ⟨a4, e4⟩ :=
    shape_heating (upd_cooling (upd_target_temp (upd_current_temp s ns) ns) ns) ns
  refine ⟨a1, a2, b2, a3, a4, UNIT_HASS_TO_HOMEKIT s.unit, ?_⟩
  unfold preMode
  rw [e4, e3, e2, e1]
  rfl

theorem preState_eq_mode (s : HCState) (ns : NewState) :
    preState s ns = upd_mode (preMode s ns) ns := rfl

theorem refresh_mode_suppressed (s : HCState) (ns : NewState)
    (h : s.flag_heat_cool = true) :
    (update_state s ns).1.char_target_heat_cool = s.char_target_heat_cool ∧
    (update_state s ns).1.char_active = s.char_active ∧
    (update_state s ns).1.flag_heat_cool = false := by
  obtain ⟨E1, E2, E3, _⟩ := update_state_early s ns
  obtain ⟨a, b, c, d, e, f, EM⟩ := preMode_shape s ns
  have hfl : (preMode s ns).flag_heat_cool = true := by rw [EM]; exact h
  have EP : preState s ns = { preMode s ns with flag_heat_cool := false } := by
    rw [preState_eq_mode]
    exact mode_suppressed_step _ _ hfl
  refine ⟨?_, ?_, ?_⟩
  · rw [E1, EP, EM]
  · rw [E2, EP, EM]
  · rw [E3, EP]

theorem refresh_mode_normal (s : HCState) (ns : NewState) (k : Nat)
    (hf : s.flag_heat_cool = false) (hm : hcLookup ns.state = some k) :
    (update_state s ns).1.char_target_heat_cool = k ∧
    (update_state s ns).1.char_active = 1 := by
  obtain ⟨E1, E2, _⟩ := update_state_early s ns
  obtain ⟨a, b, c, d, e, f, EM⟩ := preMode_shape s ns
  have hfl : (preMode s ns).flag_heat_cool = false := by rw [EM]; exact hf
  have hm2 : hcLookup ns.state = some k := hm
  have EP : preState s ns =
      { preMode s ns with char_active := 1, char_target_heat_cool := k,
                          flag_heat_cool := false } := by
    rw [preState_eq_mode]
    exact mode_normal_step _ _ _ hfl hm2
  constructor
  · rw [E1, EP]
  · rw [E2, EP]

theorem refresh_cooling_suppressed (s : HCState) (ns : NewState)
    (h : s.flag_coolingthresh = true) :
    (update_state s ns).1.char_cooling_thresh_temp = s.char_cooling_thresh_temp ∧
    (update_state s ns).1.flag_coolingthresh = false := by
  obtain ⟨_, _, _, _, _, E6, E7, _⟩ := update_state_early s ns
  obtain ⟨a1, e1⟩ := shape_current s ns
  obtain ⟨a2, b2, e2⟩ := shape_target (upd_current_temp s ns) ns
  have hfl : (upd_target_temp (upd_current_temp s ns) ns).flag_coolingthresh = true := by
    rw [e2, e1]; exact h
  have EC : upd_cooling (upd_target_temp (upd_current_temp s ns) ns) ns =
      { upd_target_temp (upd_current_temp s ns) ns with flag_coolingthresh := false } :=
    cooling_suppressed_step _ _ hfl
  obtain ⟨a4, e4⟩ :=
    shape_heating (upd_cooling (upd_target_temp (upd_current_temp s ns) ns) ns) ns
  obtain ⟨a6, b6, e6⟩ :=
    shape_mode
      (upd_display (upd_heating (upd_cooling (upd_target_temp (upd_current_temp s ns) ns) ns) ns))
      ns
  constructor
  · rw [E6]
    show (preState s ns).char_cooling_thresh_temp = s.char_cooling_thresh_temp
    unfold preState
    rw [e6, e4, EC, e2, e1]
    rfl
  · rw [E7]
    show (preState s ns).flag_coolingthresh = false
    unfold preState
    rw [e6, e4, EC]
    rfl

theorem refresh_cooling_normal (s : HCState) (ns : NewState) (c t : ℚ)
    (h : s.flag_coolingthresh = false) (hc : s.char_cooling_thresh_temp = some c)
    (ht : ns.target_temp_high = some t) :
    (update_state s ns).1.char_cooling_thresh_temp =
      some (temperature_to_homekit t s.unit) := by
  obtain ⟨_, _, _, _, _, E6, _⟩ := update_state_early s ns
  obtain ⟨a1, e1⟩ := shape_current s ns
  obtain ⟨a2, b2, e2⟩ := shape_target (upd_current_temp s ns) ns
  have hfl : (upd_target_temp (upd_current_temp s ns) ns).flag_coolingthresh = false := by
    rw [e2, e1]; exact h
  have hcc : (upd_target_temp (upd_current_temp s ns) ns).char_cooling_thresh_temp = some c := by
    rw [e2, e1]; exact hc
  have EC := cooling_normal_step _ ns c t hfl hcc ht
  obtain ⟨a4, e4⟩ :=
    shape_heating (upd_cooling (upd_target_temp (upd_current_temp s ns) ns) ns) ns
  obtain ⟨a6, b6, e6⟩ :=
    shape_mode
      (upd_display (upd_heating (upd_cooling (upd_target_temp (upd_current_temp s ns) ns) ns) ns))
      ns
  rw [E6]
  show (preState s ns).char_cooling_thresh_temp = _
  unfold preState
  rw [e6, e4, EC, e2, e1]
  rfl

theorem refresh_heating_suppressed (s : HCState) (ns : NewState)
    (h : s.flag_heatingthresh = true) :
    (update_state s ns).1.char_heating_thresh_temp = s.char_heating_thresh_temp ∧
    (update_state s ns).1.flag_heatingthresh = false := by
  obtain ⟨_, _, _, _, _, _, _, E8, E9⟩ := update_state_early s ns
  obtain ⟨a1, e1⟩ := shape_current s ns
  obtain ⟨a2, b2, e2⟩ := shape_target (upd_current_temp s ns) ns
  obtain ⟨a3, e3⟩ := shape_cooling (upd_target_temp (upd_current_temp s ns) ns) ns
  have hfl :
      (upd_cooling (upd_target_temp (upd_current_temp s ns) ns) ns).flag_heatingthresh = true := by
    rw [e3, e2, e1]; exact h
  have EH := heating_suppressed_step _ ns hfl
  obtain ⟨a6, b6, e6⟩ :=
    shape_mode
      (upd_display (upd_heating (upd_cooling (upd_target_temp (upd_current_temp s ns) ns) ns) ns))
      ns
  constructor
  · rw [E8]
    show (preState s ns).char_heating_thresh_temp = s.char_heating_thresh_temp
    unfold preState
    rw [e6, EH, e3, e2, e1]
    rfl
  · rw [E9]
    show (preState s ns).flag_heatingthresh = false
    unfold preState
    rw [e6, EH]
    rfl

theorem refresh_heating_normal (s : HCState) (ns : NewState) (c t : ℚ)
    (h : s.flag_heatingthresh = false) (hc : s.char_heating_thresh_temp = some c)
    (ht : ns.target_temp_low = some t) :
    (update_state s ns).1.char_heating_thresh_temp =
      some (temperature_to_homekit t s.unit) := by
  obtain ⟨_, _, _, _, _, _, _, E8, _⟩ := update_state_early s ns
  obtain ⟨a1, e1⟩ := shape_current s ns
  obtain ⟨a2, b2, e2⟩ := shape_target (upd_current_temp s ns) ns
  obtain ⟨a3, e3⟩ := shape_cooling (upd_target_temp (upd_current_temp s ns) ns) ns
  have hfl :
      (upd_cooling (upd_target_temp (upd_current_temp s ns) ns) ns).flag_heatingthresh = false := by
    rw [e3, e2, e1]; exact h
  have hcc :
      (upd_cooling (upd_target_temp (upd_current_temp s ns) ns) ns).char_heating_thresh_temp =
        some c := by
    rw [e3, e2, e1]; exact hc
  have EH := heating_normal_step _ ns c t hfl hcc ht
  obtain ⟨a6, b6, e6⟩ :=
    shape_mode
      (upd_display (upd_heating (upd_cooling (upd_target_temp (upd_current_temp s ns) ns) ns) ns))
      ns
  rw [E8]
  show (preState s ns).char_heating_thresh_temp = _
  unfold preState
  rw [e6, EH, e3, e2, e1]
  rfl

theorem refresh_target_suppressed (s : HCState) (ns : NewState) (c : ℚ)
    (h : s.flag_temperature = true) (hc : s.char_target_temp = some c) :
    (update_state s ns).1.char_target_temp = some c ∧
    (update_state s ns).1.flag_temperature = false := by
  obtain ⟨_, _, _, E4, E5, _⟩ := update_state_early s ns
  obtain ⟨a1, e1⟩ := shape_current s ns
  have hfl : (upd_current_temp s ns).flag_temperature = true := by rw [e1]; exact h
  have hcc : (upd_current_temp s ns).char_target_temp = some c := by rw [e1]; exact hc
  have ET := target_suppressed_step _ ns c hfl hcc
  obtain ⟨a3, e3⟩ := shape_cooling (upd_target_temp (upd_current_temp s ns) ns) ns
  obtain ⟨a4, e4⟩ :=
    shape_heating (upd_cooling (upd_target_temp (upd_current_temp s ns) ns) ns) ns
  obtain ⟨a6, b6, e6⟩ :=
    shape_mode
      (upd_display (upd_heating (upd_cooling (upd_target_temp (upd_current_temp s ns) ns) ns) ns))
      ns
  constructor
  · rw [E4]
    show (preState s ns).char_target_temp = some c
    unfold preState
    rw [e6, e4, e3, ET, e1]
    exact hc
  · rw [E5]
    show (preState s ns).flag_temperature = false
    unfold preState
    rw [e6, e4, e3, ET]
    rfl

theorem refresh_target_normal (s : HCState) (ns : NewState) (c t : ℚ)
    (h : s.flag_temperature = false) (hc : s.char_target_temp = some c)
    (ht : ns.temperature = some t) :
    (update_state s ns).1.char_target_temp = some (temperature_to_homekit t s.unit) := by
  obtain ⟨_, _, _, E4, _⟩ := update_state_early s ns
  obtain ⟨a1, e1⟩ := shape_current s ns
  have hfl : (upd_current_temp s ns).flag_temperature = false := by rw [e1]; exact h
  have hcc : (upd_current_temp s ns).char_target_temp = some c := by rw [e1]; exact hc
  have ET := target_normal_step _ ns c t hfl hcc ht
  obtain ⟨a3, e3⟩ := shape_cooling (upd_target_temp (upd_current_temp s ns) ns) ns
  obtain ⟨a4, e4⟩ :=
    shape_heating (upd_cooling (upd_target_temp (upd_current_temp s ns) ns) ns) ns
  obtain ⟨a6, b6, e6⟩ :=
    shape_mode
      (upd_display (upd_heating (upd_cooling (upd_target_temp (upd_current_temp s ns) ns) ns) ns))
      ns
  rw [E4]
  show (preState s ns).char_target_temp = _
  unfold preState
  rw [e6, e4, e3, ET, e1]
  rfl

theorem preState_late (s : HCState) (ns : NewState) :
    (preState s ns).char_swing = s.char_swing ∧
    (preState s ns).flag_swing = s.flag_swing ∧
    (preState s ns).char_speed = s.char_speed ∧
    (preState s ns).flag_fan = s.flag_fan := by
  obtain ⟨a, b, c, d, e, f, g, h, E⟩ := preState_shape s ns
  rw [E]
  exact ⟨rfl, rfl, rfl, rfl⟩

theorem refresh_swing_suppressed (s : HCState) (ns : NewState) (w : Nat) (sp : ℚ)
    (hf : s.flag_swing = some true) (hw : s.char_swing = some w)
    (hsp : s.char_speed = some sp) (ha : actionOk ns = true) :
    (update_state s ns).1.char_swing = some w ∧
    (update_state s ns).1.flag_swing = some false := by
  obtain ⟨P1, P2, P3, _⟩ := preState_late s ns
  rw [update_state_eq]
  cases h1 : upd_action (preState s ns) ns with
  | error e =>
    obtain ⟨s', h'⟩ := action_ok_of (preState s ns) ns ha
    rw [h1] at h'
    exact Except.noConfusion h'
  | ok s1 =>
    have E1 := action_ok_shape _ _ _ h1
    have hsp1 : s1.char_speed = some sp := by rw [E1]; show (preState s ns).char_speed = _; rw [P3, hsp]
    dsimp only
    cases h2 : upd_fan s1 ns with
    | error e =>
      obtain ⟨s', h'⟩ := fan_ok_of s1 ns (by rw [hsp1]; rfl)
      rw [h2] at h'
      exact Except.noConfusion h'
    | ok s2 =>
      have E2 := fan_ok_shape _ _ _ h2
      have hfs2 : s2.flag_swing = some true := by
        rw [E2]
        show s1.flag_swing = _
        rw [E1]
        show (preState s ns).flag_swing = _
        rw [P2, hf]
      have hcs2 : s2.char_swing = some w := by
        rw [E2]
        show s1.char_swing = _
        rw [E1]
        show (preState s ns).char_swing = _
        rw [P1, hw]
      have ES := swing_suppressed_step s2 ns w hfs2 hcs2
      dsimp only
      rw [ES]
      refine ⟨?_, rfl⟩
      show s2.char_swing = some w
      exact hcs2

theorem refresh_swing_normal (s : HCState) (ns : NewState) (w : Nat) (sp : ℚ) (osc : String)
    (hf : s.flag_swing = some false) (hw : s.char_swing = some w)
    (hsp : s.char_speed = some sp) (ha : actionOk ns = true)
    (ho : ns.swing_mode = some osc) :
    (update_state s ns).1.char_swing = some (if strContainsOff osc then 0 else 1) := by
  obtain ⟨P1, P2, P3, _⟩ := preState_late s ns
  rw [update_state_eq]
  cases h1 : upd_action (preState s ns) ns with
  | error e =>
    obtain ⟨s', h'⟩ := action_ok_of (preState s ns) ns ha
    rw [h1] at h'
    exact Except.noConfusion h'
  | ok s1 =>
    have E1 := action_ok_shape _ _ _ h1
    have hsp1 : s1.char_speed = some sp := by rw [E1]; show (preState s ns).char_speed = _; rw [P3, hsp]
    dsimp only
    cases h2 : upd_fan s1 ns with
    | error e =>
      obtain ⟨s', h'⟩ := fan_ok_of s1 ns (by rw [hsp1]; rfl)
      rw [h2] at h'
      exact Except.noConfusion h'
    | ok s2 =>
      have E2 := fan_ok_shape _ _ _ h2
      have hfs2 : s2.flag_swing = some false := by
        rw [E2]
        show s1.flag_swing = _
        rw [E1]
        show (preState s ns).flag_swing = _
        rw [P2, hf]
      have hcs2 : s2.char_swing = some w := by
        rw [E2]
        show s1.char_swing = _
        rw [E1]
        show (preState s ns).char_swing = _
        rw [P1, hw]
      have ES := swing_normal_step s2 ns w osc hfs2 hcs2 ho
      dsimp only
      rw [ES]

theorem contains_mem {l : List String} {a : String} : l.contains a = true ↔ a ∈ l := by
  simp [List.contains, List.elem_iff]

theorem pyDictInsert_mem (d : List (Nat × String)) (k : Nat) (v : String)
    (p : Nat × String) (h : p ∈ pyDictInsert d k v) : p ∈ d ∨ p = (k, v) := by
  unfold pyDictInsert at h
  split at h
  · rcases List.mem_map.mp h with ⟨q, hq, he⟩
    by_cases hk : (q.1 == k) = true
    · right
      rw [← he]
      simp [hk]
    · left
      rw [← he]
      simp only [hk]
      simpa using hq
  · rcases List.mem_append.mp h with h' | h'
    · left
      exact h'
    · right
      simpa using h'

theorem build_mem (u : List String) (p : Nat × String)
    (h : p ∈ buildHcHomekitToHass u) : u.contains p.2 = true := by
  suffices H : ∀ (l : List (String × Nat)) (d : List (Nat × String)),
      (∀ q ∈ d, u.contains q.2 = true) →
      ∀ q ∈ l.foldl (fun d p => if u.contains p.1 then pyDictInsert d p.2 p.1 else d) d,
        u.contains q.2 = true by
    exact H HC_HASS_TO_HOMEKIT [] (by simp) p h
  intro l
  induction l with
  | nil =>
    intro d hd q hq
    exact hd q hq
  | cons a as ih =>
    intro d hd q hq
    simp only [List.foldl_cons] at hq
    refine ih _ ?_ q hq
    intro r hr
    by_cases hc : u.contains a.1 = true
    · rw [if_pos hc] at hr
      rcases pyDictInsert_mem _ _ _ _ hr with h' | h'
      · exact hd r h'
      · rw [h']
        exact hc
    · rw [if_neg hc] at hr
      exact hd r hr

theorem dictGet?_mem (d : List (Nat × String)) (k : Nat) (m : String)
    (h : dictGet? d k = some m) : ∃ p ∈ d, p.2 = m := by
  unfold dictGet? at h
  cases hf : d.find? (fun p => p.1 == k) with
  | none =>
    rw [hf] at h
    exact absurd h (by simp)
  | some p =>
    rw [hf] at h
    exact ⟨p, List.mem_of_find?_eq_some hf, by simpa using h⟩

theorem not_mem_of_usable (modes : List String) (x : String)
    (hx : x ∉ usableModes modes) (p : Nat × String)
    (hp : p ∈ buildHcHomekitToHass (usableModes modes)) : p.2 ≠ x := by
  intro he
  apply hx
  have := build_mem (usableModes modes) p hp
  rw [he] at this
  exact contains_mem.mp this

theorem swing_not_in_temp (features : Nat) (modes : List String) :
    CHAR_SWING_MODE ∉ (temp_chars features modes).1 := by
  unfold temp_chars single_temperature_char
  split
  · decide
  · split
    · dsimp only
      split
      · decide
      · split
        · decide
        · decide
    · decide

/-! ## The claims -/

/-- C1 (counterexample): fan speed is a synchronized attribute with a
pending flag, yet with its flag set the very next `update_state` writes
the device-reported value (50) over the written value (100) because the
fan block never consults the flag. -/
theorem C1_counterexample :
    c1Written.flag_fan = some true ∧
    c1Written.char_speed = some 100 ∧
    speed_to_homekit c1Written.speed_mapping c1EchoNS.fan_mode = some 50 ∧
    (update_state c1Written c1EchoNS).1.char_speed = some 50 := by decide

/-- C1 (amended): for the mode, target-temperature, cooling-threshold,
heating-threshold and swing attributes, a set pending flag suppresses the
next refresh's write to the corresponding characteristic(s) and is cleared
by it, and a refresh with the flag clear writes the translated device
value normally; fan speed is excluded (its flag is cleared but not
consulted, see the counterexample).  The swing conjuncts assume the
refresh reaches the swing block (a fan characteristic exists and the
hvac-action lookup does not raise). -/
theorem C1_echo_suppression (s : HCState) (ns : NewState) :
    (s.flag_heat_cool = true →
      (update_state s ns).1.char_target_heat_cool = s.char_target_heat_cool ∧
      (update_state s ns).1.char_active = s.char_active ∧
      (update_state s ns).1.flag_heat_cool = false) ∧
    (∀ k, s.flag_heat_cool = false → hcLookup ns.state = some k →
      (update_state s ns).1.char_target_heat_cool = k ∧
      (update_state s ns).1.char_active = 1) ∧
    (∀ c, s.flag_temperature = true → s.char_target_temp = some c →
      (update_state s ns).1.char_target_temp = some c ∧
      (update_state s ns).1.flag_temperature = false) ∧
    (∀ c t, s.flag_temperature = false → s.char_target_temp = some c →
      ns.temperature = some t →
      (update_state s ns).1.char_target_temp = some (temperature_to_homekit t s.unit)) ∧
    (s.flag_coolingthresh = true →
      (update_state s ns).1.char_cooling_thresh_temp = s.char_cooling_thresh_temp ∧
      (update_state s ns).1.flag_coolingthresh = false) ∧
    (∀ c t, s.flag_coolingthresh = false → s.char_cooling_thresh_temp = some c →
      ns.target_temp_high = some t →
      (update_state s ns).1.char_cooling_thresh_temp =
        some (temperature_to_homekit t s.unit)) ∧
    (s.flag_heatingthresh = true →
      (update_state s ns).1.char_heating_thresh_temp = s.char_heating_thresh_temp ∧
      (update_state s ns).1.flag_heatingthresh = false) ∧
    (∀ c t, s.flag_heatingthresh = false → s.char_heating_thresh_temp = some c →
      ns.target_temp_low = some t →
      (update_state s ns).1.char_heating_thresh_temp =
        some (temperature_to_homekit t s.unit)) ∧
    (∀ w sp, s.flag_swing = some true → s.char_swing = some w →
      s.char_speed = some sp → actionOk ns = true →
      (update_state s ns).1.char_swing = some w ∧
      (update_state s ns).1.flag_swing = some false) ∧
    (∀ w sp osc, s.flag_swing = some false → s.char_swing = some w →
      s.char_speed = some sp → actionOk ns = true → ns.swing_mode = some osc →
      (update_state s ns).1.char_swing = some (if strContainsOff osc then 0 else 1)) := by
  refine ⟨?_, ?_, ?_, ?_, ?_, ?_, ?_, ?_, ?_, ?_⟩
  · intro h
    exact refresh_mode_suppressed s ns h
  · intro k hf hm
    exact refresh_mode_normal s ns k hf hm
  · intro c h hc
    exact refresh_target_suppressed s ns c h hc
  · intro c t h hc ht
    exact refresh_target_normal s ns c t h hc ht
  · intro h
    exact refresh_cooling_suppressed s ns h
  · intro c t h hc ht
    exact refresh_cooling_normal s ns c t h hc ht
  · intro h
    exact refresh_heating_suppressed s ns h
  · intro c t h hc ht
    exact refresh_heating_normal s ns c t h hc ht
  · intro w sp hf hw hsp ha
    exact refresh_swing_suppressed s ns w sp hf hw hsp ha
  · intro w sp osc hf hw hsp ha ho
    exact refresh_swing_normal s ns w sp osc hf hw hsp ha ho

theorem C1_witness :
    ((update_state c1AllFlags c1RefreshNS).1.char_target_heat_cool = 1 ∧
     (update_state c1AllFlags c1RefreshNS).1.char_active = 1 ∧
     (update_state c1AllFlags c1RefreshNS).1.flag_heat_cool = false) ∧
    ((update_state c1AllFlags c1RefreshNS).1.char_target_temp = some 21 ∧
     (update_state c1AllFlags c1RefreshNS).1.flag_temperature = false) ∧
    ((update_state c1AllFlags c1RefreshNS).1.char_cooling_thresh_temp = some 23 ∧
     (update_state c1AllFlags c1RefreshNS).1.flag_coolingthresh = false) ∧
    ((update_state c1AllFlags c1RefreshNS).1.char_heating_thresh_temp = some 19 ∧
     (update_state c1AllFlags c1RefreshNS).1.flag_heatingthresh = false) ∧
    ((update_state c1AllFlags c1RefreshNS).1.char_swing = some 1 ∧
     (update_state c1AllFlags c1RefreshNS).1.flag_swing = some false) ∧
    ((update_state c1NoFlags c1RefreshNS).1.char_target_heat_cool = 2 ∧
     (update_state c1NoFlags c1RefreshNS).1.char_active = 1) ∧
    (update_state c1NoFlags c1RefreshNS).1.char_target_temp = some 24 ∧
    (update_state c1NoFlags c1RefreshNS).1.char_cooling_thresh_temp = some 26 ∧
    (update_state c1NoFlags c1RefreshNS).1.char_heating_thresh_temp = some 18 ∧
    (update_state c1NoFlags c1RefreshNS).1.char_swing = some 0 := by
  have H1 := C1_echo_suppression c1AllFlags c1RefreshNS
  have H2 := C1_echo_suppression c1NoFlags c1RefreshNS
  refine ⟨H1.1 rfl, H1.2.2.1 21 rfl rfl, H1.2.2.2.2.1 rfl,
    H1.2.2.2.2.2.2.1 rfl, H1.2.2.2.2.2.2.2.2.1 1 50 rfl rfl rfl rfl, ?_, ?_, ?_, ?_, ?_⟩
  · exact H2.2.1 2 rfl rfl
  · exact H2.2.2.2.1 21 24 rfl rfl rfl
  · exact H2.2.2.2.2.2.1 23 26 rfl rfl rfl
  · exact H2.2.2.2.2.2.2.2.1 19 18 rfl rfl rfl
  · exact H2.2.2.2.2.2.2.2.2.2 0 50 "swing_off" rfl rfl rfl rfl rfl

/-- C2: any burst of N >= 1 debounced writes to the cooling threshold
produces exactly one device command, carrying the last written value as
the high bound and the heating-threshold characteristic's current value as
the low bound. -/
theorem C2_debounced_cooling_burst (s : HCState) (values : List ℚ) (v low : ℚ)
    (hlow : s.char_heating_thresh_temp = some low)
    (hlast : values.getLast? = some v) :
    debounce_burst set_cooling_threshold s values =
      Except.ok ({ s with flag_coolingthresh := true },
        [ServiceCall.setTemperatureRange s.entity_id (temperature_to_states v s.unit)
          (temperature_to_states low s.unit)],
        [Log.debug "Set cooling threshold temperature"]) := by
  unfold debounce_burst
  rw [hlast]
  unfold set_cooling_threshold
  rw [hlow]

theorem C2_witness :
    ([(20 : ℚ), 21, 22].getLast? = some 22) ∧
    debounce_burst set_cooling_threshold demoState [20, 21, 22] =
      Except.ok ({ demoState with flag_coolingthresh := true },
        [ServiceCall.setTemperatureRange "climate.demo" 22 19],
        [Log.debug "Set cooling threshold temperature"]) :=
  ⟨by decide, C2_debounced_cooling_burst demoState [20, 21, 22] 22 19 rfl rfl⟩

/-- C3: a protocol write to the target-mode characteristic with a value
outside the usable set issues no device command, changes no state (in
particular no pending flag), logs one error, and returns normally (no
exception). -/
theorem C3_invalid_mode_write (s : HCState) (value : Nat)
    (h : dictGet? s.hc_homekit_to_hass value = none) :
    set_heat_cool s value =
      Except.ok (s, [],
        [Log.error "HomeKit tried to set invalid heat-cool characteristic"]) := by
  unfold set_heat_cool
  rw [h]

theorem C3_witness :
    dictGet? demoState.hc_homekit_to_hass 7 = none ∧
    set_heat_cool demoState 7 =
      Except.ok (demoState, [],
        [Log.error "HomeKit tried to set invalid heat-cool characteristic"]) :=
  ⟨by decide, C3_invalid_mode_write demoState 7 (by decide)⟩

/-- C4 (amended): on a duplicate-free device mode list, Heat+Cool is
dropped from the usable set whenever Auto is also present, Fan-only is
dropped whenever Cool is also present, and the dropped mode is then
unreachable from the exported `valid_values`: no exported protocol value
maps back to it through `hc_homekit_to_hass`.  (With duplicates in the
mode list, `list.remove` drops only the first occurrence — see the
counterexample.) -/
theorem C4_mode_subsumption (modes : List String) (hnd : modes.Nodup) :
    (HVAC_MODE_AUTO ∈ modes → HVAC_MODE_HEAT_COOL ∈ modes →
      HVAC_MODE_HEAT_COOL ∉ usableModes modes ∧
      ∀ kv ∈ validValues (buildHcHomekitToHass (usableModes modes)),
        dictGet? (buildHcHomekitToHass (usableModes modes)) kv.2 ≠
          some HVAC_MODE_HEAT_COOL) ∧
    (HVAC_MODE_COOL ∈ modes → HVAC_MODE_FAN_ONLY ∈ modes →
      HVAC_MODE_FAN_ONLY ∉ usableModes modes ∧
      ∀ kv ∈ validValues (buildHcHomekitToHass (usableModes modes)),
        dictGet? (buildHcHomekitToHass (usableModes modes)) kv.2 ≠
          some HVAC_MODE_FAN_ONLY) := by
  have hfilter_nd : (modes.filter (fun m => HC_KEYS.contains m)).Nodup := hnd.filter _
  constructor
  · intro h1 h2
    have k1 : HVAC_MODE_HEAT_COOL ∈ modes.filter (fun m => HC_KEYS.contains m) :=
      List.mem_filter.mpr ⟨h2, by decide⟩
    have k2 : HVAC_MODE_AUTO ∈ modes.filter (fun m => HC_KEYS.contains m) :=
      List.mem_filter.mpr ⟨h1, by decide⟩
    have hcond :
        ((modes.filter (fun m => HC_KEYS.contains m)).contains HVAC_MODE_AUTO &&
          (modes.filter (fun m => HC_KEYS.contains m)).contains HVAC_MODE_HEAT_COOL) = true := by
      rw [Bool.and_eq_true]
      exact ⟨contains_mem.mpr k2, contains_mem.mpr k1⟩
    have main : HVAC_MODE_HEAT_COOL ∉ usableModes modes := by
      unfold usableModes
      simp only [hcond, if_true]
      have hne :
          HVAC_MODE_HEAT_COOL ∉
            (modes.filter (fun m => HC_KEYS.contains m)).erase HVAC_MODE_HEAT_COOL :=
        hfilter_nd.not_mem_erase
      split
      · intro hmem
        exact hne ((List.erase_sublist _ _).mem hmem)
      · exact hne
    refine ⟨main, ?_⟩
    intro kv _ hcontra
    obtain ⟨p, hp, hpv⟩ := dictGet?_mem _ _ _ hcontra
    exact not_mem_of_usable modes HVAC_MODE_HEAT_COOL main p hp hpv
  · intro h1 h2
    have k1 : HVAC_MODE_FAN_ONLY ∈ modes.filter (fun m => HC_KEYS.contains m) :=
      List.mem_filter.mpr ⟨h2, by decide⟩
    have k2 : HVAC_MODE_COOL ∈ modes.filter (fun m => HC_KEYS.contains m) :=
      List.mem_filter.mpr ⟨h1, by decide⟩
    have main : HVAC_MODE_FAN_ONLY ∉ usableModes modes := by
      unfold usableModes
      dsimp only
      split
      · have nd1 :
            ((modes.filter (fun m => HC_KEYS.contains m)).erase HVAC_MODE_HEAT_COOL).Nodup :=
          hfilter_nd.erase _
        have k1' :
            HVAC_MODE_FAN_ONLY ∈
              (modes.filter (fun m => HC_KEYS.contains m)).erase HVAC_MODE_HEAT_COOL :=
          List.mem_erase_of_ne (by decide) |>.mpr k1
        have k2' :
            HVAC_MODE_COOL ∈
              (modes.filter (fun m => HC_KEYS.contains m)).erase HVAC_MODE_HEAT_COOL :=
          List.mem_erase_of_ne (by decide) |>.mpr k2
        have hcond2 :
            (((modes.filter (fun m => HC_KEYS.contains m)).erase HVAC_MODE_HEAT_COOL).contains
                HVAC_MODE_COOL &&
              ((modes.filter (fun m => HC_KEYS.contains m)).erase HVAC_MODE_HEAT_COOL).contains
                HVAC_MODE_FAN_ONLY) = true := by
          rw [Bool.and_eq_true]
          exact ⟨contains_mem.mpr k2', contains_mem.mpr k1'⟩
        simp only [hcond2, if_true]
        exact nd1.not_mem_erase
      · have hcond2 :
            ((modes.filter (fun m => HC_KEYS.contains m)).contains HVAC_MODE_COOL &&
              (modes.filter (fun m => HC_KEYS.contains m)).contains HVAC_MODE_FAN_ONLY) =
              true := by
          rw [Bool.and_eq_true]
          exact ⟨contains_mem.mpr k2, contains_mem.mpr k1⟩
        simp only [hcond2, if_true]
        exact hfilter_nd.not_mem_erase
    refine ⟨main, ?_⟩
    intro kv _ hcontra
    obtain ⟨p, hp, hpv⟩ := dictGet?_mem _ _ _ hcontra
    exact not_mem_of_usable modes HVAC_MODE_FAN_ONLY main p hp hpv

/-- C4 (counterexample): with Auto and Heat+Cool both available but
Heat+Cool listed twice, `list.remove` deletes only the first occurrence,
so Heat+Cool survives in the usable set and the exported valid value 0
still maps back to it. -/
theorem C4_counterexample :
    HVAC_MODE_AUTO ∈ dupModes ∧ HVAC_MODE_HEAT_COOL ∈ dupModes ∧
    HVAC_MODE_HEAT_COOL ∈ usableModes dupModes ∧
    ("Auto", 0) ∈ validValues (buildHcHomekitToHass (usableModes dupModes)) ∧
    dictGet? (buildHcHomekitToHass (usableModes dupModes)) 0 =
      some HVAC_MODE_HEAT_COOL := by decide

theorem C4_witness :
    (HVAC_MODE_HEAT_COOL ∉ usableModes c4Modes ∧
      ∀ kv ∈ validValues (buildHcHomekitToHass (usableModes c4Modes)),
        dictGet? (buildHcHomekitToHass (usableModes c4Modes)) kv.2 ≠
          some HVAC_MODE_HEAT_COOL) ∧
    (HVAC_MODE_FAN_ONLY ∉ usableModes c4Modes ∧
      ∀ kv ∈ validValues (buildHcHomekitToHass (usableModes c4Modes)),
        dictGet? (buildHcHomekitToHass (usableModes c4Modes)) kv.2 ≠
          some HVAC_MODE_FAN_ONLY) := by
  have H := C4_mode_subsumption c4Modes (by decide)
  exact ⟨H.1 (by decide) (by decide), H.2 (by decide) (by decide)⟩

/-- C5: with the device's mode list unavailable, the constructor logs the
error but then crashes with a `TypeError` (`list(a, b, c)` is not a valid
call of the Python `list` builtin), instead of constructing with the
assumed fallback mode set. -/
theorem C5_modes_fallback_crash :
    (resolve_modes none).1 =
      Except.error (PyErr.typeError "list expected at most 1 argument, got 3") ∧
    (resolve_modes none).2 = [Log.error "HVAC modes not yet available for this entity"] ∧
    construct { entity_id := "climate.demo", unit := TempUnit.celsius,
                features := SUPPORT_TARGET_TEMPERATURE_RANGE, hvac_modes := none,
                fan_modes := none, swing_modes := none } =
      Except.error (PyErr.typeError "list expected at most 1 argument, got 3") :=
  ⟨rfl, rfl, rfl⟩

/-- C6: `update_state` raises out of its entry point on real constructed
accessories: an `AttributeError` on `self.char_speed` for any accessory
without fan support, an `AttributeError` on `self._flag_swing` on a
swing-capable accessory's first refresh, and an `AttributeError`
(`None.lower()`) when the snapshot's swing-mode attribute is absent —
contradicting the claim that no refresh crashes. -/
theorem C6_update_state_crashes :
    ((constructOk c6NoFanArgs).map (fun s => (update_state s c6NS).2) =
      some (some (PyErr.attributeError "char_speed"))) ∧
    ((constructOk c6FullArgs).map (fun s => (update_state s c6NS).2) =
      some (some (PyErr.attributeError "_flag_swing"))) ∧
    ((constructOk c6FullArgs).map
        (fun s => (update_state ((set_swing_mode s 1).1) c6NS).2) = some none) ∧
    ((constructOk c6FullArgs).map
        (fun s =>
          (update_state (update_state ((set_swing_mode s 1).1) c6NS).1 c6NoSwingNS).2) =
      some (some (PyErr.attributeError "lower"))) := by decide

/-- C7: temperature-characteristic selection — range support exposes both
thresholds and nothing else; single-target support exposes exactly one
threshold slot chosen by mode availability (heating slot with an error log
when both Heat and Cool are available, cooling slot when Cool is available
without Heat, heating slot otherwise). -/
theorem C7_temp_char_selection (features : Nat) (modes : List String) :
    ((features &&& SUPPORT_TARGET_TEMPERATURE_RANGE != 0) = true →
      temp_chars features modes =
        ([CHAR_COOLING_THRESHOLD_TEMPERATURE, CHAR_HEATING_THRESHOLD_TEMPERATURE], [])) ∧
    ((features &&& SUPPORT_TARGET_TEMPERATURE_RANGE != 0) = false →
      (features &&& SUPPORT_TARGET_TEMPERATURE != 0) = true →
      ((HVAC_MODE_HEAT ∈ modes ∧ HVAC_MODE_COOL ∈ modes →
        temp_chars features modes =
          ([CHAR_HEATING_THRESHOLD_TEMPERATURE],
           [Log.error "Entities supporting heating and cooling should use a temperature range"])) ∧
       (HVAC_MODE_COOL ∈ modes ∧ HVAC_MODE_HEAT ∉ modes →
        temp_chars features modes = ([CHAR_COOLING_THRESHOLD_TEMPERATURE], [])) ∧
       (HVAC_MODE_COOL ∉ modes →
        temp_chars features modes = ([CHAR_HEATING_THRESHOLD_TEMPERATURE], [])))) := by
  constructor
  · intro h
    unfold temp_chars
    rw [if_pos h]
  · intro h1 h2
    have h1' : ¬((features &&& SUPPORT_TARGET_TEMPERATURE_RANGE != 0) = true) := by
      simp [h1]
    refine ⟨?_, ?_, ?_⟩
    · rintro ⟨ha, hb⟩
      have hca : modes.contains HVAC_MODE_COOL = true := contains_mem.mpr hb
      have hch : modes.contains HVAC_MODE_HEAT = true := contains_mem.mpr ha
      unfold temp_chars single_temperature_char
      rw [if_neg h1', if_pos h2]
      simp [ha, hb]
    · rintro ⟨ha, hb⟩
      unfold temp_chars single_temperature_char
      rw [if_neg h1', if_pos h2]
      simp [ha, hb]
    · intro ha
      unfold temp_chars single_temperature_char
      rw [if_neg h1', if_pos h2]
      simp [ha]

theorem C7_witness :
    temp_chars 2 [HVAC_MODE_HEAT, HVAC_MODE_COOL, HVAC_MODE_HEAT_COOL] =
      ([CHAR_COOLING_THRESHOLD_TEMPERATURE, CHAR_HEATING_THRESHOLD_TEMPERATURE], []) ∧
    temp_chars 1 [HVAC_MODE_HEAT, HVAC_MODE_COOL] =
      ([CHAR_HEATING_THRESHOLD_TEMPERATURE],
       [Log.error "Entities supporting heating and cooling should use a temperature range"]) ∧
    temp_chars 1 [HVAC_MODE_COOL] = ([CHAR_COOLING_THRESHOLD_TEMPERATURE], []) ∧
    temp_chars 1 [HVAC_MODE_HEAT] = ([CHAR_HEATING_THRESHOLD_TEMPERATURE], []) := by
  refine ⟨(C7_temp_char_selection 2 _).1 (by decide), ?_, ?_, ?_⟩
  · exact ((C7_temp_char_selection 1 _).2 (by decide) (by decide)).1 ⟨by decide, by decide⟩
  · exact ((C7_temp_char_selection 1 _).2 (by decide) (by decide)).2.1 ⟨by decide, by decide⟩
  · exact ((C7_temp_char_selection 1 _).2 (by decide) (by decide)).2.2 (by decide)

/-- C8: with swing support in the feature mask, the swing characteristic
is exposed iff partitioning the swing-mode list into "off"-named entries
and the rest yields two non-empty parts; otherwise an error is logged and
the characteristic is omitted, while construction still succeeds. -/
theorem C8_swing_char (features : Nat) (modes : List String) (swing_modes : List String)
    (hs : (features &&& SUPPORT_SWING_MODE != 0) = true) :
    (CHAR_SWING_MODE ∈ (build_chars features modes swing_modes).1 ↔
      (swing_partition swing_modes).1 ≠ [] ∧ (swing_partition swing_modes).2 ≠ []) ∧
    ((swing_partition swing_modes).1 = [] ∨ (swing_partition swing_modes).2 = [] →
      Log.error "Could not map swing modes" ∈ (build_chars features modes swing_modes).2) ∧
    (∀ e u fm, ∃ st logs,
      construct { entity_id := e, unit := u, features := features,
                  hvac_modes := some modes, fan_modes := fm,
                  swing_modes := some swing_modes } = Except.ok (st, logs)) := by
  have hT := swing_not_in_temp features modes
  have hbase :
      ∀ l : List String, CHAR_SWING_MODE ∉ l →
        CHAR_SWING_MODE ∉
          (if (features &&& SUPPORT_FAN_MODE != 0) = true then l ++ [CHAR_ROTATION_SPEED]
           else l) := by
    intro l hl
    split
    · intro hmem
      rcases List.mem_append.mp hmem with h' | h'
      · exact hl h'
      · exact absurd (List.mem_singleton.mp h') (by decide)
    · exact hl
  have hnotbase :
      CHAR_SWING_MODE ∉ ([CHAR_TEMP_DISPLAY_UNITS] ++ (temp_chars features modes).1) := by
    intro hmem
    rcases List.mem_append.mp hmem with h' | h'
    · exact absurd (List.mem_singleton.mp h') (by decide)
    · exact hT h'
  refine ⟨?_, ?_, ?_⟩
  · unfold build_chars
    dsimp only
    rw [if_pos hs]
    split
    · rename_i hcond
      simp only [Bool.and_eq_true, decide_eq_true_eq] at hcond
      constructor
      · intro _
        exact ⟨List.ne_nil_of_length_pos hcond.2, List.ne_nil_of_length_pos hcond.1⟩
      · intro _
        exact List.mem_append_right _ (List.mem_singleton.mpr rfl)
    · rename_i hcond
      simp only [Bool.and_eq_true, decide_eq_true_eq, not_and_or, Nat.not_lt,
        Nat.le_zero, List.length_eq_zero] at hcond
      constructor
      · intro hmem
        exact absurd hmem (hbase _ hnotbase)
      · rintro ⟨hA, hB⟩
        rcases hcond with h' | h'
        · exact absurd h' hB
        · exact absurd h' hA
  · intro hempty
    unfold build_chars
    dsimp only
    rw [if_pos hs]
    split
    · rename_i hcond
      simp only [Bool.and_eq_true, decide_eq_true_eq] at hcond
      rcases hempty with h' | h'
      · rw [h'] at hcond
        exact absurd hcond.2 (by simp)
      · rw [h'] at hcond
        exact absurd hcond.1 (by simp)
    · exact List.mem_append_right _ (List.mem_singleton.mpr rfl)
  · intro e u fm
    exact ⟨_, _, rfl⟩

theorem C8_witness :
    CHAR_SWING_MODE ∈ (build_chars 32 [HVAC_MODE_COOL] ["swing_off", "swing_on"]).1 ∧
    CHAR_SWING_MODE ∉ (build_chars 32 [HVAC_MODE_COOL] ["low", "medium", "high"]).1 ∧
    Log.error "Could not map swing modes" ∈
      (build_chars 32 [HVAC_MODE_COOL] ["low", "medium", "high"]).2 ∧
    (∃ st logs,
      construct { entity_id := "climate.c", unit := TempUnit.celsius, features := 32,
                  hvac_modes := some [HVAC_MODE_COOL], fan_modes := none,
                  swing_modes := some ["low", "medium", "high"] } =
        Except.ok (st, logs)) := by
  have H1 := C8_swing_char 32 [HVAC_MODE_COOL] ["swing_off", "swing_on"] (by decide)
  have H2 := C8_swing_char 32 [HVAC_MODE_COOL] ["low", "medium", "high"] (by decide)
  refine ⟨H1.1.mpr ⟨by decide, by decide⟩, ?_, H2.2.1 (Or.inl (by decide)),
    H2.2.2 "climate.c" TempUnit.celsius none⟩
  intro hmem
  exact absurd (H2.1.mp hmem).1 (by decide)

theorem C9_counterexample :
    c9State.flag_fan = some true ∧
    c9State.char_speed = some 100 ∧
    speed_to_homekit c9State.speed_mapping c9NS.fan_mode = some 50 ∧
    (update_state c9State c9NS).1.char_speed = some 50 := by decide

/-- C9 (amended): the fan block of `update_state` rewrites the
characteristic exactly when the mapped value is non-`None` and differs
from the current value, regardless of the pending flag; the flag is
cleared but never consulted; an unknown fan-speed name maps to `None`,
leaves the characteristic untouched and raises nothing. -/
theorem C9_fan_refresh (s : HCState) (ns : NewState) (cur : ℚ)
    (h : s.char_speed = some cur) :
    upd_fan s ns =
      Except.ok
        { s with
          char_speed := some ((speed_to_homekit s.speed_mapping ns.fan_mode).getD cur),
          flag_fan := some false } ∧
    (speed_to_homekit s.speed_mapping ns.fan_mode = none →
      (speed_to_homekit s.speed_mapping ns.fan_mode).getD cur = cur) ∧
    (∀ nm, ns.fan_mode = some nm →
      s.speed_mapping.find? (fun p => p.1 == nm) = none →
      speed_to_homekit s.speed_mapping ns.fan_mode = none) := by
  refine ⟨fan_step_behavior s ns cur h, ?_, ?_⟩
  · intro h'
    rw [h']
    rfl
  · intro nm hnm hfind
    unfold speed_to_homekit
    rw [hnm]
    dsimp only
    rw [hfind]
    rfl

theorem C9_witness :
    upd_fan demoState c9UnknownNS =
      Except.ok { demoState with char_speed := some 50, flag_fan := some false } ∧
    speed_to_homekit demoState.speed_mapping c9UnknownNS.fan_mode = none := by
  have H := C9_fan_refresh demoState c9UnknownNS 50 rfl
  refine ⟨?_, ?_⟩
  · have h2istable := H.1
    simpa using h2istable
  · exact H.2.2 "turbo" rfl (by decide)

/-- C10: a valid-mode protocol write while the active characteristic holds
0 is dropped: no command, no flag change, only a debug log; the next
refresh still updates the mode characteristic normally. -/
theorem C10_inactive_mode_write (s : HCState) (value : Nat) (hass_value : String)
    (hv : dictGet? s.hc_homekit_to_hass value = some hass_value)
    (hact : s.char_active = 0) (ns : NewState) (k : Nat)
    (hflag : s.flag_heat_cool = false) (hm : hcLookup ns.state = some k) :
    set_heat_cool s value =
      Except.ok (s, [],
        [Log.debug "updated heat-cool characteristic, but service is inactive"]) ∧
    (update_state s ns).1.char_target_heat_cool = k ∧
    (update_state s ns).1.char_active = 1 := by
  constructor
  · unfold set_heat_cool
    rw [hv, hact]
    rfl
  · exact refresh_mode_normal s ns k hflag hm

theorem C10_witness :
    set_heat_cool inactiveState 2 =
      Except.ok (inactiveState, [],
        [Log.debug "updated heat-cool characteristic, but service is inactive"]) ∧
    (update_state inactiveState demoNS).1.char_target_heat_cool = 1 ∧
    (update_state inactiveState demoNS).1.char_active = 1 :=
  C10_inactive_mode_write inactiveState 2 HVAC_MODE_COOL (by decide) (by decide)
    demoNS 1 (by decide) (by decide)
